import Mathlib

/-!
Shallow embedding of the Drewbots weather trading bot
(`trading/weather-bot/`): the paper-trading ledger (`paper_trade.py`),
the orchestrator's risk gate and sizing (`bot.py`), the base signal
path (`signal_generator.py`) and the lock-in path (`lockin_signals.py`).
Python floats are embedded as exact rationals, Python ints as `ℤ`.
-/

namespace Drewbots

/-- Python `int(q)` applied to an exact rational: truncation toward zero. -/
def pyTrunc (q : ℚ) : ℤ := if 0 ≤ q then ⌊q⌋ else -⌊-q⌋

/-- Python `round(q)` applied to an exact rational: round half to even. -/
def pyRound (q : ℚ) : ℤ :=
  let f : ℤ := ⌊q⌋
  let r : ℚ := q - (f : ℚ)
  if r < 1/2 then f
  else if 1/2 < r then f + 1
  else if f % 2 = 0 then f else f + 1

/-- `signal_generator.Signal` dataclass (the fields the embedded code reads). -/
structure Signal where
  city : String
  market_type : String
  event_ticker : String
  market_ticker : String
  action : String
  side : String
  suggested_price : ℤ
  confidence : ℚ
  edge_pct : ℚ
  current_temp_f : ℚ
  forecast_temp_f : ℚ
  surrounding_avg_f : ℚ
  market_yes_price : ℤ
  is_tomorrow : Bool := false
  margin : ℚ := 0
  signal_source : String := "model"
deriving Repr, DecidableEq

/-! ## Paper mirror (`paper_trade.py`)

A `paper_trades` row (the columns the embedded functions read/write) and the
`paper_balance` append-only ledger, most recent row first.  `created_day`
stands for `date(created_at, '-5 hours')`, the ET day key used by the dedup
and daily-count queries. -/

structure PaperTradeRow where
  market_ticker : String
  side : String
  price_cents : ℤ
  contracts : ℤ
  settled : Bool
  pnl_cents : ℤ
  created_day : ℤ
deriving Repr, DecidableEq

structure PaperState where
  balances : List ℤ
  trades : List PaperTradeRow
deriving Repr, DecidableEq

def PAPER_BANKROLL_START : ℤ := 10000

/-- `get_paper_balance`: latest ledger row, or the starting bankroll. -/
def get_paper_balance (s : PaperState) : ℤ :=
  s.balances.headD PAPER_BANKROLL_START

/-- `is_duplicate_trade`: an unsettled row for `(ticker, side)` created today. -/
def is_duplicate_trade (s : PaperState) (today : ℤ) (ticker side : String) : Bool :=
  s.trades.any fun t =>
    t.market_ticker == ticker && t.side == side && !t.settled && t.created_day == today

/-- `get_todays_trade_count`: rows whose ET creation day is today. -/
def get_todays_trade_count (s : PaperState) (today : ℤ) : ℤ :=
  ((s.trades.filter fun t => t.created_day == today).length : ℤ)

/-- `paper_trade(signal, contracts)`: dedup and risk checks, then insert the
trade row and append a debited balance row.  `none` mirrors returning `None`.
`int(balance * max_position_pct / 100)` is embedded as exact truncated
division (the float expression agrees on every account size below 2^50). -/
def paper_trade (max_position_pct max_trades_per_day today : ℤ)
    (sig : Signal) (contracts : ℤ) (s : PaperState) : Option PaperState :=
  if is_duplicate_trade s today sig.market_ticker sig.side then none
  else
    let balance := get_paper_balance s
    let cost := sig.suggested_price * contracts
    let max_position := (balance * max_position_pct).tdiv 100
    if cost > max_position then none
    else if get_todays_trade_count s today ≥ max_trades_per_day then none
    else if cost > balance then none
    else some
      { balances := (balance - cost) :: s.balances,
        trades := s.trades ++
          [{ market_ticker := sig.market_ticker, side := sig.side,
             price_cents := sig.suggested_price, contracts := contracts,
             settled := false, pnl_cents := 0, created_day := today }] }

/-- Does a row match the `close_paper_position` FIFO query
(`market_ticker = ? AND side = ? AND settled = 0`)? -/
def rowMatches (ticker side : String) (t : PaperTradeRow) : Prop :=
  t.market_ticker = ticker ∧ t.side = side ∧ t.settled = false

instance (ticker side : String) (t : PaperTradeRow) :
    Decidable (rowMatches ticker side t) := by
  unfold rowMatches; infer_instance

/-- The FIFO settlement loop of `close_paper_position`: walks the matching
unsettled rows in id order, settling `min(contracts, remaining)` from each.
Returns the updated table and the rows inserted by partial-close splits
(appended at the end of the table, as a SQL `INSERT` does).
Python `//` is floor division, hence `Int.fdiv`. -/
def closeFifo (ticker side : String) (credit qty : ℤ) :
    ℤ → List PaperTradeRow → List PaperTradeRow × List PaperTradeRow
  | _, [] => ([], [])
  | remaining, t :: ts =>
    if remaining ≤ 0 ∨ ¬ rowMatches ticker side t then
      let rest := closeFifo ticker side credit qty remaining ts
      (t :: rest.1, rest.2)
    else
      let settle_qty := min t.contracts remaining
      let pnl := (credit * settle_qty).fdiv qty - settle_qty * t.price_cents
      let rest := closeFifo ticker side credit qty (remaining - settle_qty) ts
      if settle_qty = t.contracts then
        ({ t with settled := true, pnl_cents := pnl } :: rest.1, rest.2)
      else
        ({ t with contracts := t.contracts - settle_qty } :: rest.1,
         { t with contracts := settle_qty, settled := true, pnl_cents := pnl } :: rest.2)

/-- `close_paper_position(ticker, side, qty, price)`: compute the credit
(`qty * (100 - price)` for a NO close, `qty * price` for YES), settle matching
rows FIFO, and append a credited balance row.  The credit is applied whether
or not the FIFO loop found `qty` open contracts. -/
def close_paper_position (ticker side : String) (qty price : ℤ)
    (s : PaperState) : PaperState :=
  let credit := if side = "no" then qty * (100 - price) else qty * price
  let res := closeFifo ticker side credit qty qty s.trades
  { balances := (get_paper_balance s + credit) :: s.balances,
    trades := res.1 ++ res.2 }

/-- The E2E-1 signal: NO on `T1` at 20¢, market YES at 80¢. -/
def e2e1Signal : Signal :=
  { city := "NYC", market_type := "high", event_ticker := "E1",
    market_ticker := "T1", action := "buy", side := "no",
    suggested_price := 20, confidence := 1/2, edge_pct := 50,
    current_temp_f := 50, forecast_temp_f := 50, surrounding_avg_f := 50,
    market_yes_price := 80 }

/-- Fresh paper ledger with the 10,000¢ starting bankroll. -/
def e2e1Start : PaperState := { balances := [10000], trades := [] }

/-- The paper state after opening the E2E-1 trade: 200¢ debited, one row. -/
def e2e1AfterOpen : PaperState :=
  { balances := [9800, 10000],
    trades := [{ market_ticker := "T1", side := "no", price_cents := 20,
                 contracts := 10, settled := false, pnl_cents := 0,
                 created_day := 0 }] }

/-! ## Orchestrator: kill switch (`bot.py` 685-690) and cycle flow (1198-1334) -/

/-- The instance attributes ever assigned on `WeatherBot`: `__init__`
(`bot.py` 43-48) sets `paper_mode`, `client`, `risk`, `_80pct_triggered`;
`main` (line 1433) sets `no_jitter`.  Nothing assigns `config`. -/
def weatherBotAttrs : List String :=
  ["paper_mode", "client", "risk", "_80pct_triggered", "no_jitter"]

/-- A Python runtime error raised by the embedded code. -/
inductive PyErr where
  | attributeError
deriving Repr, DecidableEq

/-- The kill-switch gate at the top of `execute_signal` (`bot.py` 688-690):
`if self.config.get("kill_switch", False): return None`.  Reading
`self.config` raises `AttributeError` unless `config` is among the object's
attributes; with the attribute present the gate would return `none` (order
blocked) when the flag is true and pass the signal on otherwise. -/
def execute_signal_kill_switch_gate (attrs : List String) (kill_switch : Bool)
    (sig : Signal) : Except PyErr (Option Signal) :=
  if "config" ∈ attrs then
    if kill_switch then Except.ok none else Except.ok (some sig)
  else Except.error PyErr.attributeError

/-- The steps of one `run_cycle` invocation. -/
inductive CycleStep where
  | sync_settlements
  | log_portfolio
  | profit_rule
  | take_profits
  | cut_losers
  | collect_weather
  | metar_update
  | window_check
  | signal_generation
  | execution
deriving Repr, DecidableEq

/-- `run_cycle` (`bot.py` 1198-1334) as the sequence of steps it attempts.
Steps 0-0d always run (their failures are caught internally); the `except`
arm of step 1 (`collect_all`, lines 1232-1237) ends the cycle with `return`;
the `except` arm of step 1b (`update_all_stations`, lines 1240-1245)
continues, so `metar_fails` does not change the flow; an out-of-window check
returns after step 2. -/
def run_cycle_steps (paper_mode collect_fails _metar_fails in_window : Bool) :
    List CycleStep :=
  (if paper_mode then [] else [CycleStep.sync_settlements]) ++
  [CycleStep.log_portfolio, CycleStep.profit_rule, CycleStep.take_profits,
   CycleStep.cut_losers, CycleStep.collect_weather] ++
  if collect_fails then []
  else
    [CycleStep.metar_update, CycleStep.window_check] ++
    if in_window then [CycleStep.signal_generation, CycleStep.execution] else []

/-! ## Base signal path (`signal_generator.py`) -/

/-- The clamp on line 563: `our_prob = max(0.01, min(0.99, our_prob))`. -/
def clamp_our_prob (p : ℚ) : ℚ := max (1/100) (min (99/100) p)

/-- Line 564: `our_price_cents = int(our_prob * 100)` — Python `int`, i.e.
truncation toward zero. -/
def our_price_cents (p : ℚ) : ℤ := pyTrunc (clamp_our_prob p * 100)

/-- The spec's reading of line 564: `price_us = round(p_us × 100)`, nearest
integer with Python's half-to-even tie rule.  Kept for comparison with
`our_price_cents`. -/
def spec_price_us (p : ℚ) : ℤ := pyRound (clamp_our_prob p * 100)

/-- The inputs read by the flagged-signal classification for a candidate NO
signal (`_analyze_brackets`, lines 600-636).  `running_high`/`running_low`
and the forecasts come from the estimate dict and may be absent. -/
structure NoCheckCtx where
  market_type : String
  is_tomorrow : Bool
  running_high : Option ℚ
  running_low : Option ℚ
  forecast_high : Option ℚ
  forecast_low : Option ℚ
  bracket_low : ℚ
  bracket_high : ℚ
  estimated_temp : ℚ
  yes_bid : ℤ
  edge : ℚ
deriving Repr, DecidableEq

/-- Flag 1 (lines 607-619): the running extreme of the market's own type is
within 2°F of the near bracket edge (`bracket_low` for highs, `bracket_high`
for lows) while the model claims more than 50% edge. -/
def flag_running_margin (ctx : NoCheckCtx) : Bool :=
  ((ctx.market_type == "high") &&
    (Option.any (fun h => decide (|h - ctx.bracket_low| < 2 ∧ ctx.edge > 50))
      ctx.running_high)) ||
  ((ctx.market_type == "low") &&
    (Option.any (fun l => decide (|l - ctx.bracket_high| < 2 ∧ ctx.edge > 50))
      ctx.running_low))

/-- Flag 2 (lines 622-624): liquid quote (≥ 15¢), edge above 80%, today. -/
def flag_market_disagreement (ctx : NoCheckCtx) : Bool :=
  decide (ctx.yes_bid ≥ 15) && decide (ctx.edge > 80) && !ctx.is_tomorrow

/-- Flag 3 (lines 627-636): today only, the forecast of the market's type is
present and nonzero (Python truthiness) and diverges from the running
extreme by more than 3°F. -/
def flag_forecast_divergence (ctx : NoCheckCtx) : Bool :=
  (!ctx.is_tomorrow && (ctx.market_type == "high") &&
    (Option.any (fun h =>
      Option.any (fun v => decide (v ≠ 0 ∧ |h - v| > 3)) ctx.forecast_high)
      ctx.running_high)) ||
  (!ctx.is_tomorrow && (ctx.market_type == "low") &&
    (Option.any (fun l =>
      Option.any (fun v => decide (v ≠ 0 ∧ |l - v| > 3)) ctx.forecast_low)
      ctx.running_low))

/-- `flagged` after the three flag blocks: any flag raises it. -/
def signal_flagged (ctx : NoCheckCtx) : Bool :=
  flag_running_margin ctx || flag_market_disagreement ctx ||
    flag_forecast_divergence ctx

/-- The claim's reading of flag (a): the estimate `μ` is within 2°F of a
bracket edge and the edge exceeds 50%.  Kept for comparison with
`flag_running_margin`. -/
def spec_flag_estimate_margin (ctx : NoCheckCtx) : Bool :=
  decide (min |ctx.estimated_temp - ctx.bracket_low|
    |ctx.estimated_temp - ctx.bracket_high| ≤ 2 ∧ ctx.edge > 50)

/-- The claim's reading of flag (c): the forecast of the market's type
diverges from the running extreme by more than 3°F (no today-only guard,
no nonzero guard). -/
def spec_flag_forecast_divergence (ctx : NoCheckCtx) : Bool :=
  ((ctx.market_type == "high") &&
    (Option.any (fun h =>
      Option.any (fun v => decide (|h - v| > 3)) ctx.forecast_high)
      ctx.running_high)) ||
  ((ctx.market_type == "low") &&
    (Option.any (fun l =>
      Option.any (fun v => decide (|l - v| > 3)) ctx.forecast_low)
      ctx.running_low))

/-- The claim's flagged classification: (a) or (b) or (c) as the claim
words them. -/
def spec_signal_flagged (ctx : NoCheckCtx) : Bool :=
  spec_flag_estimate_margin ctx || flag_market_disagreement ctx ||
    spec_flag_forecast_divergence ctx

/-! ## Risk gate and profit rule (`bot.py` 120-207, 387-468)

`int(x * 0.40)` and `int(x * 10 / 100)` on integer cents are embedded as
exact truncated division `(x * 40).tdiv 100` and `(x * 10).tdiv 100`; the
float expressions agree for every account size below 2^50 cents. -/

/-- The `CONFIG["risk"]` keys the embedded functions read. -/
structure RiskConfig where
  max_trades_per_day : ℤ
  min_edge_pct : ℚ
  bonus_trades_after_wins : ℤ
  bonus_trade_count : ℤ
  max_position_pct : ℤ
  min_entry_price : ℤ
  max_contracts_per_ticker : ℤ
deriving Repr, DecidableEq

/-- A paper position as aggregated by `get_paper_positions` and priced by
`get_paper_portfolio_value`: signed quantity, exposure, and the live
`yes_bid` quote used to mark it. -/
structure PaperPos where
  ticker : String
  position : ℤ
  market_exposure : ℤ
  yes_bid : ℤ
deriving Repr, DecidableEq

/-- `current_value` in `get_paper_portfolio_value` (`paper_trade.py`
336-339): `|qty| * (100 - yes_bid)` for NO, `qty * yes_bid` for YES. -/
def position_current_value (p : PaperPos) : ℤ :=
  if p.position < 0 then |p.position| * (100 - p.yes_bid)
  else p.position * p.yes_bid

/-- The positions with nonzero quantity (both the portfolio valuation and
the exposure sum skip `position == 0`). -/
def open_positions (ps : List PaperPos) : List PaperPos :=
  ps.filter fun p => p.position != 0

/-- `get_paper_total_account_value`: cash plus market value of open
positions. -/
def total_account_value (cash : ℤ) (ps : List PaperPos) : ℤ :=
  cash + ((open_positions ps).map position_current_value).sum

/-- `total_exposure` in `check_risk_limits` (paper branch, `bot.py` 128):
`sum(abs(market_exposure))` over open positions. -/
def total_open_exposure (ps : List PaperPos) : ℤ :=
  ((open_positions ps).map fun p => |p.market_exposure|).sum

/-- `_get_account_scale_factor` (paper branch, `bot.py` 209-229):
`max(0.5, balance / 8000)`. -/
def account_scale_factor (balance : ℤ) : ℚ :=
  max (1/2) ((balance : ℚ) / 8000)

/-- `base_max = max(8, int(max_trades_per_day * scale))` (`bot.py` 157). -/
def base_max_trades (risk : RiskConfig) (scale : ℚ) : ℤ :=
  max 8 (pyTrunc ((risk.max_trades_per_day : ℚ) * scale))

/-- `bonus_threshold = max(6, int(bonus_trades_after_wins * scale))`. -/
def bonus_threshold_trades (risk : RiskConfig) (scale : ℚ) : ℤ :=
  max 6 (pyTrunc ((risk.bonus_trades_after_wins : ℚ) * scale))

/-- `looking_good_threshold = max(7, int(17 * scale))` (`bot.py` 186). -/
def looking_good_threshold (scale : ℚ) : ℤ := max 7 (pyTrunc (17 * scale))

/-- The `effective_max` value `check_risk_limits` compares `today_count`
against (`bot.py` 163-194): base, `+10` while `_80pct_triggered` is set,
raised to `base_max + bonus_count` after enough wins, `+3` more when enough
open positions are in profit and the count sits in the unlocked band. -/
def effective_max_trades (base_max bonus_count : ℤ) (profit_triggered : Bool)
    (today_wins bonus_threshold today_count looking_good lg_threshold : ℤ) : ℤ :=
  let e1 := if profit_triggered then base_max + 10 else base_max
  let e2 := if today_wins ≥ bonus_threshold then max e1 (base_max + bonus_count)
    else e1
  if today_count ≥ e2 ∧ looking_good ≥ lg_threshold ∧ today_count < e2 + 3
  then e2 + 3 else e2

/-- `check_risk_limits`, paper mode (`bot.py` 120-207): capital cap first
(reject when exposure reaches `int(total_account * 0.40)`), then the
daily-cap ladder (with the bonus-slot longshot restriction), then the
minimum edge (1% for lock-ins, `min_edge_pct` otherwise). -/
def check_risk_limits_paper (risk : RiskConfig) (profit_triggered : Bool)
    (cash : ℤ) (positions : List PaperPos)
    (today_count today_wins looking_good : ℤ) (sig : Signal) : Bool :=
  let total_account := total_account_value cash positions
  let total_exposure := total_open_exposure positions
  let max_exposure_cents := (total_account * 40).tdiv 100
  if total_exposure ≥ max_exposure_cents then false
  else
    let scale := account_scale_factor cash
    let base_max := base_max_trades risk scale
    let bonus_threshold := bonus_threshold_trades risk scale
    if today_wins ≥ bonus_threshold ∧ today_count ≥ base_max ∧
        (sig.side ≠ "yes" ∨ sig.suggested_price > 10) then false
    else
      let emax := effective_max_trades base_max risk.bonus_trade_count
        profit_triggered today_wins bonus_threshold today_count looking_good
        (looking_good_threshold scale)
      if today_count ≥ emax then false
      else
        let min_edge := if sig.signal_source = "metar_lockin" then (1 : ℚ)
          else risk.min_edge_pct
        if sig.edge_pct < min_edge then false
        else true

/-- Unrealized P&L in `check_80pct_rule` (paper branch, `bot.py` 395-398):
`sum(current_value) - sum(market_exposure)` over the enriched (open)
positions. -/
def unrealized_pnl_paper (ps : List PaperPos) : ℤ :=
  ((open_positions ps).map position_current_value).sum -
  ((open_positions ps).map fun p => p.market_exposure).sum

/-- `trigger_amount = int(account_value * PROFIT_TRIGGER_PCT / 100)` with
`PROFIT_TRIGGER_PCT = 10` (`bot.py` 391, 400). -/
def profit_trigger_amount (cash : ℤ) (ps : List PaperPos) : ℤ :=
  (total_account_value cash ps * 10).tdiv 100

/-- `check_80pct_rule`, paper branch (`bot.py` 393-416): when
`unrealized_pnl >= trigger_amount and trigger_amount > 0`, the bot calls
`_liquidate_winning_positions` on the open positions and sets
`_80pct_triggered`; `some positions` models that call (plus the flag),
`none` models not firing. -/
def check_80pct_rule_paper (cash : ℤ) (ps : List PaperPos) :
    Option (List PaperPos) :=
  if unrealized_pnl_paper ps ≥ profit_trigger_amount cash ps ∧
      profit_trigger_amount cash ps > 0
  then some (open_positions ps)
  else none

/-- A config instance with the spec's documented defaults, for witnesses. -/
def defaultRisk : RiskConfig :=
  { max_trades_per_day := 10, min_edge_pct := 15,
    bonus_trades_after_wins := 18, bonus_trade_count := 2,
    max_position_pct := 25, min_entry_price := 2,
    max_contracts_per_ticker := 50 }

/-- E2E-3 portfolio: ten open NO positions of 10 contracts at 80¢ each
(exposure 800¢ apiece, priced at `yes_bid = 20`). -/
def e2e3Positions : List PaperPos :=
  List.replicate 10
    { ticker := "T", position := -10, market_exposure := 800, yes_bid := 20 }

/-! ## Sizing and lock-in stacking (`bot.py` 284-385, 685-752) -/

/-- `stack_multiplier` (`bot.py` 313-327): 5× / 3× for stacked lock-ins by
edge tier, 2× for tomorrow strong-NO model signals, 1× otherwise. -/
def stack_multiplier (is_stacking is_lockin is_tomorrow : Bool)
    (edge : ℚ) (side : String) : ℚ :=
  if is_stacking && is_lockin then
    if edge ≥ 80 then 5 else if edge ≥ 40 then 3 else 1
  else if is_tomorrow && decide (edge ≥ 40) && (side == "no") then 2
  else 1

/-- `calculate_position_size` (`bot.py` 284-385).  `is_stacking` stands for
the duplicate-position probe (paper: `is_duplicate_trade`; live:
`_is_live_duplicate`), `jitter` for the `random.choice([-1, 0, 0, 1])`
anti-fingerprint adjustment.  Python `//` is `Int.fdiv`, `int(...)` on the
float products is `pyTrunc`/`tdiv` as elsewhere. -/
def calculate_position_size (risk : RiskConfig) (balance : ℤ)
    (is_stacking is_lockin : Bool) (jitter : ℤ) (sig : Signal) : ℤ :=
  let price := sig.suggested_price
  if price ≤ 0 then 0
  else
    let mult := stack_multiplier is_stacking is_lockin sig.is_tomorrow
      sig.edge_pct sig.side
    if sig.side ≠ "no" ∧ price < 50 ∧ price < risk.min_entry_price then 0
    else
      let min_risk_cents : ℤ := if sig.side = "no" then 175
        else if price ≥ 50 then 0 else 100
      let max_risk_cents : ℤ := if sig.side = "no" then pyTrunc (225 * mult)
        else if price ≥ 50 then pyTrunc (175 * mult) else pyTrunc (125 * mult)
      let contracts_by_risk := if sig.side ≠ "no" ∧ price ≥ 50
        then max 3 (max_risk_cents.fdiv price) else max_risk_cents.fdiv price
      let contracts1 := min contracts_by_risk 10
      let contracts2 := if min_risk_cents > 0
        then max contracts1 (max 1 (-((-min_risk_cents).fdiv price)))
        else contracts1
      let max_by_bankroll :=
        ((balance * risk.max_position_pct).tdiv 100).fdiv price
      let contracts3 := min contracts2 max_by_bankroll
      let contracts4 := if contracts3 ≥ 3 then max 1 (contracts3 + jitter)
        else contracts3
      max 0 contracts4

/-- One live execution of a lock-in signal against a ticker already holding
`existing` contracts: the per-ticker cap (`bot.py` 692-705, reject at
`max_contracts_per_ticker`), the lock-in stack gate (733-744, reject a
duplicate only when `existing ≥ 25`), the remaining gates (sanity, risk
limits) abstracted as `gates_pass`, then sizing and the fill (746-752).
Returns the ticker's contract count afterwards. -/
def execute_lockin_stack (risk : RiskConfig) (balance jitter : ℤ)
    (gates_pass : Bool) (sig : Signal) (existing : ℤ) : ℤ :=
  if existing ≥ risk.max_contracts_per_ticker then existing
  else if existing ≠ 0 ∧ existing ≥ 25 then existing
  else if !gates_pass then existing
  else
    let contracts := calculate_position_size risk balance (existing != 0) true
      jitter sig
    if contracts ≤ 0 then existing else existing + contracts

/-- Repeated lock-in executions on one ticker, from an empty position; each
step carries its signal, jitter draw and gate outcome. -/
def run_lockin_stacks (risk : RiskConfig) (balance : ℤ)
    (steps : List (Signal × ℤ × Bool)) : ℤ :=
  steps.foldl
    (fun existing step =>
      execute_lockin_stack risk balance step.2.1 step.2.2 step.1 existing) 0

/-- A lock-in NO signal: NO at 20¢ against a YES quote of 80¢, edge 99%. -/
def c8Signal : Signal :=
  { city := "NYC", market_type := "high", event_ticker := "E8",
    market_ticker := "T8", action := "buy", side := "no",
    suggested_price := 20, confidence := 19/20, edge_pct := 99,
    current_temp_f := 50, forecast_temp_f := 50, surrounding_avg_f := 50,
    market_yes_price := 80, signal_source := "metar_lockin" }

/-! ## Lock-in signal path (`lockin_signals.py`) -/

/-- A Kalshi market record (the fields the lock-in checker reads, after the
`or 0` / `or 100` defaulting). -/
structure Market where
  ticker : String
  floor_strike : Option ℚ
  cap_strike : Option ℚ
  strike_type : String
  yes_bid : ℤ
  yes_ask : ℤ
  no_bid : ℤ
  no_ask : ℤ
deriving Repr, DecidableEq

/-- `LOCKIN_SAFETY_BUFFER_F = 1.0` (`lockin_signals.py` 42). -/
def LOCKIN_SAFETY_BUFFER_F : ℚ := 1

/-- `is_high_locked` (`lockin_signals.py` 50-52): ET hour at least 18. -/
def is_high_locked (et_hour : ℤ) : Bool := et_hour ≥ 18

/-- `is_low_locked` (`lockin_signals.py` 55-57): ET hour at least 8. -/
def is_low_locked (et_hour : ℤ) : Bool := et_hour ≥ 8

/-- `our_prob = 0.01` (`lockin_signals.py` 243). -/
def lockin_our_prob : ℚ := 1/100

/-- `our_price_cents = 1` (`lockin_signals.py` 244). -/
def lockin_our_price_cents : ℤ := 1

/-- `_check_impossible_bracket` (`lockin_signals.py` 176-267): skip markets
with no strike or an illiquid book; a bracket is impossible when its floor
exceeds `locked_bound` (direction `"above"`) or its cap is below it
(direction `"below"`); require `yes_bid ≥ 10`; emit BUY NO at
`100 - yes_bid` with `edge = (yes_bid - our_price_cents)/yes_bid × 100`,
confidence 0.95, if the edge clears `min_edge`. -/
def check_impossible_bracket (m : Market)
    (city market_type event_ticker : String)
    (running_extreme locked_bound : ℚ) (direction : String)
    (min_edge : ℚ) : Option Signal :=
  if m.floor_strike = none ∧ m.cap_strike = none then none
  else if m.yes_bid = 0 ∧ m.yes_ask = 100 then none
  else
    let is_impossible : Bool :=
      if direction = "above" then
        Option.any (fun f => decide (f > locked_bound)) m.floor_strike
      else if direction = "below" then
        Option.any (fun c => decide (c < locked_bound)) m.cap_strike
      else false
    if !is_impossible then none
    else if m.yes_bid < 10 then none
    else
      let edge := ((m.yes_bid : ℚ) - (lockin_our_price_cents : ℚ)) /
        (m.yes_bid : ℚ) * 100
      if edge < min_edge then none
      else some
        { city := city, market_type := market_type,
          event_ticker := event_ticker, market_ticker := m.ticker,
          action := "buy", side := "no",
          suggested_price := 100 - m.yes_bid, confidence := 19/20,
          edge_pct := edge, current_temp_f := running_extreme,
          forecast_temp_f := running_extreme,
          surrounding_avg_f := running_extreme,
          market_yes_price := m.yes_bid }

/-- The E2E-6 market: `H>58` with `yes_bid = 30`. -/
def e2e6Market : Market :=
  { ticker := "KXHIGHNY-T58", floor_strike := some 58, cap_strike := none,
    strike_type := "greater", yes_bid := 30, yes_ask := 35, no_bid := 65,
    no_ask := 70 }

/-- A concrete NO-candidate context: NYC high market `[40, 42]`, running
high 40.5°F (0.5°F from the lower edge), forecast high 41°F, estimate 50°F,
quote 10¢, claimed edge 60%. -/
def c7Ctx : NoCheckCtx :=
  { market_type := "high", is_tomorrow := false,
    running_high := some (81/2), running_low := none,
    forecast_high := some 41, forecast_low := none,
    bracket_low := 40, bracket_high := 42, estimated_temp := 50,
    yes_bid := 10, edge := 60 }

/-! ## Theorems -/

/-- The FIFO loop leaves a table with no matching unsettled row untouched
and inserts nothing. -/
theorem closeFifo_no_match (ticker side : String) (credit qty r : ℤ)
    (l : List PaperTradeRow) (h : ∀ t ∈ l, ¬ rowMatches ticker side t) :
    closeFifo ticker side credit qty r l = (l, []) := by
  induction l with
  | nil => rfl
  | cons t ts ih =>
    have ht : ¬ rowMatches ticker side t := h t (by simp)
    have hts : ∀ u ∈ ts, ¬ rowMatches ticker side u := fun u hu => h u (by simp [hu])
    simp [closeFifo, ht, ih hts]

/-- The FIFO loop skips over an unmatched prefix of the table. -/
theorem closeFifo_append_no_match (ticker side : String) (credit qty r : ℤ)
    (l1 l2 : List PaperTradeRow) (h : ∀ t ∈ l1, ¬ rowMatches ticker side t) :
    closeFifo ticker side credit qty r (l1 ++ l2) =
      (l1 ++ (closeFifo ticker side credit qty r l2).1,
       (closeFifo ticker side credit qty r l2).2) := by
  induction l1 with
  | nil => simp
  | cons t ts ih =>
    have ht : ¬ rowMatches ticker side t := h t (by simp)
    have hts : ∀ u ∈ ts, ¬ rowMatches ticker side u := fun u hu => h u (by simp [hu])
    simp [closeFifo, ht, ih hts]

/-- **C2.** For every paper NO trade opened at price `p` cents with `c`
contracts via `paper_trade` (with no other open `(ticker, no)` row) and later
fully closed via `close_paper_position` at observed `yes_bid = b`: the open
appends a balance row debited by `p * c`, the close appends a balance row
credited by `(100 - b) * c`, so the net balance change over the pair is
`(100 - b) * c - p * c`, and the settled row's `pnl_cents` equals
`(100 - b - p) * c`. -/
theorem paper_no_open_close_accounting
    (pct mtd today : ℤ) (sig : Signal) (c b : ℤ) (s s1 : PaperState)
    (hside : sig.side = "no") (hc : 0 < c)
    (hopen : paper_trade pct mtd today sig c s = some s1)
    (honly : ∀ t ∈ s.trades, ¬ rowMatches sig.market_ticker "no" t) :
    get_paper_balance s1 = get_paper_balance s - sig.suggested_price * c ∧
    get_paper_balance (close_paper_position sig.market_ticker "no" c b s1) =
      get_paper_balance s1 + (100 - b) * c ∧
    get_paper_balance (close_paper_position sig.market_ticker "no" c b s1) -
      get_paper_balance s = (100 - b) * c - sig.suggested_price * c ∧
    ∃ t ∈ (close_paper_position sig.market_ticker "no" c b s1).trades,
      t.market_ticker = sig.market_ticker ∧ t.side = "no" ∧ t.settled = true ∧
      t.pnl_cents = (100 - b - sig.suggested_price) * c := by
  simp only [paper_trade] at hopen
  split_ifs at hopen
  rw [Option.some_inj] at hopen
  subst hopen
  set row : PaperTradeRow :=
    { market_ticker := sig.market_ticker, side := sig.side,
      price_cents := sig.suggested_price, contracts := c,
      settled := false, pnl_cents := 0, created_day := today } with hrow
  have hrowm : rowMatches sig.market_ticker "no" row := by
    refine ⟨rfl, ?_, rfl⟩
    simpa [hrow] using hside
  have hfifo : closeFifo sig.market_ticker "no" (c * (100 - b)) c c [row] =
      ([{ row with
          settled := true,
          pnl_cents := c * (100 - b) - c * sig.suggested_price }], []) := by
    simp only [closeFifo]
    rw [if_neg ?_]
    · simp [hrow, min_self, Int.mul_fdiv_cancel _ hc.ne']
    · push_neg
      exact ⟨hc, hrowm⟩
  have hclose : close_paper_position sig.market_ticker "no" c b
      ⟨(get_paper_balance s - sig.suggested_price * c) :: s.balances, s.trades ++ [row]⟩ =
      ⟨(get_paper_balance s - sig.suggested_price * c + c * (100 - b)) ::
          (get_paper_balance s - sig.suggested_price * c) :: s.balances,
        s.trades ++ [{ row with
          settled := true,
          pnl_cents := c * (100 - b) - c * sig.suggested_price }]⟩ := by
    simp only [close_paper_position, if_true]
    rw [closeFifo_append_no_match _ _ _ _ _ _ _ honly, hfifo]
    simp [get_paper_balance]
  refine ⟨rfl, ?_, ?_, ?_⟩
  · rw [hclose]
    show get_paper_balance s - sig.suggested_price * c + c * (100 - b) = _
    show _ = get_paper_balance s - sig.suggested_price * c + (100 - b) * c
    ring
  · rw [hclose]
    show get_paper_balance s - sig.suggested_price * c + c * (100 - b) -
      get_paper_balance s = _
    ring
  · rw [hclose]
    refine ⟨{ row with
        settled := true,
        pnl_cents := c * (100 - b) - c * sig.suggested_price }, ?_, rfl, ?_, rfl, by ring⟩
    · simp
    · simpa [hrow] using hside

/-- Witness for C2 at the E2E-1 numbers: open NO `T1` at 20¢ × 10 from a
10,000¢ balance, close at `yes_bid = 5`; final balance 10,750¢, pnl 750¢. -/
theorem paper_no_open_close_accounting_witness :
    get_paper_balance e2e1AfterOpen = get_paper_balance e2e1Start - 20 * 10 ∧
    get_paper_balance (close_paper_position "T1" "no" 10 5 e2e1AfterOpen) =
      get_paper_balance e2e1AfterOpen + (100 - 5) * 10 ∧
    get_paper_balance (close_paper_position "T1" "no" 10 5 e2e1AfterOpen) -
      get_paper_balance e2e1Start = (100 - 5) * 10 - 20 * 10 ∧
    ∃ t ∈ (close_paper_position "T1" "no" 10 5 e2e1AfterOpen).trades,
      t.market_ticker = "T1" ∧ t.side = "no" ∧ t.settled = true ∧
      t.pnl_cents = (100 - 5 - 20) * 10 := by
  exact paper_no_open_close_accounting 25 15 0 e2e1Signal 10 5 e2e1Start
    e2e1AfterOpen rfl (by decide) (by decide) (by simp [e2e1Start])

/-- **C10.** `close_paper_position` credits the balance ledger by the full
`qty * (100 - price)` for a NO close unconditionally: it never checks that
the unsettled contracts recorded for `(ticker, side)` cover `qty`.  In any
state with no open `(ticker, no)` row at all (so `qty` exceeds the open
quantity), the close leaves the trade table unchanged and strictly increases
the paper balance. -/
theorem close_paper_position_unchecked_credit
    (ticker : String) (qty price : ℤ) (s : PaperState)
    (hq : 0 < qty) (hp : price ≤ 99)
    (hnone : ∀ t ∈ s.trades, ¬ rowMatches ticker "no" t) :
    (close_paper_position ticker "no" qty price s).trades = s.trades ∧
    get_paper_balance (close_paper_position ticker "no" qty price s) =
      get_paper_balance s + qty * (100 - price) ∧
    get_paper_balance s < get_paper_balance (close_paper_position ticker "no" qty price s) := by
  have hid := closeFifo_no_match ticker "no" (qty * (100 - price)) qty qty s.trades hnone
  have hclose : close_paper_position ticker "no" qty price s =
      ⟨(get_paper_balance s + qty * (100 - price)) :: s.balances, s.trades⟩ := by
    simp only [close_paper_position, if_true]
    rw [hid]
    simp
  refine ⟨by rw [hclose], by rw [hclose]; rfl, ?_⟩
  rw [hclose]
  show get_paper_balance s < get_paper_balance s + qty * (100 - price)
  nlinarith

/-- Witness for C10: a fresh ledger (no open rows at all), phantom close of
5 NO contracts at `yes_bid = 40`: balance jumps from 10,000¢ to 10,300¢. -/
theorem close_paper_position_unchecked_credit_witness :
    (close_paper_position "T9" "no" 5 40 e2e1Start).trades = e2e1Start.trades ∧
    get_paper_balance (close_paper_position "T9" "no" 5 40 e2e1Start) =
      get_paper_balance e2e1Start + 5 * (100 - 40) ∧
    get_paper_balance e2e1Start <
      get_paper_balance (close_paper_position "T9" "no" 5 40 e2e1Start) := by
  exact close_paper_position_unchecked_credit "T9" 5 40 e2e1Start (by decide)
    (by decide) (by simp [e2e1Start])

/-- **C1.** The claim says a true `kill_switch` makes `execute_signal`
return `None` without raising.  In the code the gate reads `self.config`,
an attribute `WeatherBot` never assigns, so for every signal — whatever the
flag's value — the gate raises `AttributeError` instead of reaching the
check: the code contradicts its own kill-switch note and the spec's intent
(`CONFIG["kill_switch"]`). -/
theorem execute_signal_kill_switch_raises (kill_switch : Bool) (sig : Signal) :
    execute_signal_kill_switch_gate weatherBotAttrs kill_switch sig =
      Except.error PyErr.attributeError := by
  have h : ("config" ∈ weatherBotAttrs) = False := by simp [weatherBotAttrs]
  simp [execute_signal_kill_switch_gate, h]

/-- Witness for C1: on a concrete signal with the kill switch on, the gate
raises rather than returning `none`. -/
theorem execute_signal_kill_switch_raises_witness :
    execute_signal_kill_switch_gate weatherBotAttrs true e2e1Signal =
      Except.error PyErr.attributeError :=
  execute_signal_kill_switch_raises true e2e1Signal

/-- Counterexample to C5 as stated: in a paper cycle inside a trading
window, if the collect step fails, none of the later steps (METAR update,
window check, signal generation, execution) run. -/
theorem run_cycle_collect_failure_counterexample :
    CycleStep.collect_weather ∈ run_cycle_steps true true false true ∧
    CycleStep.metar_update ∉ run_cycle_steps true true false true ∧
    CycleStep.window_check ∉ run_cycle_steps true true false true ∧
    CycleStep.signal_generation ∉ run_cycle_steps true true false true ∧
    CycleStep.execution ∉ run_cycle_steps true true false true := by
  decide

/-- **C5 (amended).** If `collect_all` raises, `run_cycle` returns right
after the collect step: the METAR update, window check, signal generation
and execution of that cycle are all skipped.  By contrast, when collection
succeeds, a failure of the METAR-update step alone does not abort the
cycle: the window check still runs, and signal generation runs when in
window. -/
theorem run_cycle_collect_failure_aborts (pm mf w : Bool) :
    run_cycle_steps pm true mf w =
      (if pm then [] else [CycleStep.sync_settlements]) ++
      [CycleStep.log_portfolio, CycleStep.profit_rule, CycleStep.take_profits,
       CycleStep.cut_losers, CycleStep.collect_weather] ∧
    CycleStep.metar_update ∈ run_cycle_steps pm false mf w ∧
    CycleStep.window_check ∈ run_cycle_steps pm false mf w ∧
    CycleStep.signal_generation ∈ run_cycle_steps pm false mf true := by
  cases pm <;> cases mf <;> cases w <;> decide

/-- Counterexample to C6 as stated: at clamped probability `7/8`, the code's
`int(our_prob * 100)` yields 87, while `round(p_us × 100)` yields 88. -/
theorem our_price_cents_truncates_counterexample :
    our_price_cents (7/8) = 87 ∧ spec_price_us (7/8) = 88 ∧
    our_price_cents (7/8) ≠ spec_price_us (7/8) := by
  norm_num [our_price_cents, spec_price_us, clamp_our_prob, pyTrunc, pyRound,
    min_def, max_def]

/-- `int()` on a nonnegative exact rational is the floor. -/
theorem pyTrunc_eq_floor (q : ℚ) (h : 0 ≤ q) : pyTrunc q = ⌊q⌋ := if_pos h

/-- **C6 (amended).** The model probability is clamped to `[0.01, 0.99]`,
and the compared price in cents is `int(p_us * 100)` — the clamped
probability times 100 truncated toward zero (the floor, here), NOT rounded
to the nearest integer; it always lies in `[1, 99]`. -/
theorem our_price_cents_clamps_and_truncates (p : ℚ) :
    1/100 ≤ clamp_our_prob p ∧ clamp_our_prob p ≤ 99/100 ∧
    our_price_cents p = ⌊clamp_our_prob p * 100⌋ ∧
    1 ≤ our_price_cents p ∧ our_price_cents p ≤ 99 := by
  have h1 : 1/100 ≤ clamp_our_prob p := le_max_left _ _
  have h2 : clamp_our_prob p ≤ 99/100 := by
    apply max_le (by norm_num) (min_le_left _ _)
  have h0 : (0 : ℚ) ≤ clamp_our_prob p * 100 := by positivity
  have hfl : our_price_cents p = ⌊clamp_our_prob p * 100⌋ :=
    pyTrunc_eq_floor _ h0
  refine ⟨h1, h2, hfl, ?_, ?_⟩
  · rw [hfl]
    rw [Int.le_floor]
    push_cast
    nlinarith
  · rw [hfl]
    have : clamp_our_prob p * 100 ≤ 99 := by nlinarith
    calc ⌊clamp_our_prob p * 100⌋ ≤ ⌊(99 : ℚ)⌋ := Int.floor_le_floor this
    _ = 99 := by norm_num

/-- `Option.any` succeeds exactly on a `some` whose value satisfies the
test. -/
theorem optAny_eq_true {α : Type} (p : α → Bool) (o : Option α) :
    Option.any p o = true ↔ ∃ a, o = some a ∧ p a = true := by
  cases o <;> simp [Option.any]

/-- Counterexample to C7 as stated: on `c7Ctx` the code flags the signal
(running high 40.5°F is 0.5°F from the bracket's lower edge with 60% edge)
while none of the claim's three conditions hold (the estimate 50°F is 8°F
from both edges, the quote is below 15¢, and forecast and running high are
only 0.5°F apart). -/
theorem signal_flagged_counterexample :
    signal_flagged c7Ctx = true ∧ spec_signal_flagged c7Ctx = false := by
  norm_num [signal_flagged, spec_signal_flagged, flag_running_margin,
    flag_market_disagreement, flag_forecast_divergence,
    spec_flag_estimate_margin, spec_flag_forecast_divergence, c7Ctx,
    Option.any, min_def, abs]

/-- **C7 (amended).** A candidate NO signal is flagged exactly when one of:
(a) the *running extreme of the market's type* is within 2°F of the *near*
bracket edge (`bracket_low` for highs, `bracket_high` for lows) and the edge
exceeds 50%; (b) `yes_bid ≥ 15`, edge above 80%, and not tomorrow-dated;
(c) not tomorrow-dated and the (present, nonzero) forecast of the market's
type diverges from the running extreme by more than 3°F. -/
theorem signal_flagged_iff (ctx : NoCheckCtx) :
    signal_flagged ctx = true ↔
      ((ctx.market_type = "high" ∧ ∃ h, ctx.running_high = some h ∧
          |h - ctx.bracket_low| < 2 ∧ ctx.edge > 50) ∨
       (ctx.market_type = "low" ∧ ∃ l, ctx.running_low = some l ∧
          |l - ctx.bracket_high| < 2 ∧ ctx.edge > 50) ∨
       (ctx.yes_bid ≥ 15 ∧ ctx.edge > 80 ∧ ctx.is_tomorrow = false) ∨
       (ctx.is_tomorrow = false ∧ ctx.market_type = "high" ∧
          ∃ h, ctx.running_high = some h ∧ ∃ v, ctx.forecast_high = some v ∧
            v ≠ 0 ∧ |h - v| > 3) ∨
       (ctx.is_tomorrow = false ∧ ctx.market_type = "low" ∧
          ∃ l, ctx.running_low = some l ∧ ∃ v, ctx.forecast_low = some v ∧
            v ≠ 0 ∧ |l - v| > 3)) := by
  simp only [signal_flagged, flag_running_margin, flag_market_disagreement,
    flag_forecast_divergence, Bool.or_eq_true, Bool.and_eq_true,
    beq_iff_eq, optAny_eq_true, decide_eq_true_eq, Bool.not_eq_true',
    and_assoc, or_assoc]

/-- The exposure sum is a sum of absolute values, hence nonnegative. -/
theorem total_open_exposure_nonneg (ps : List PaperPos) :
    0 ≤ total_open_exposure ps := by
  apply List.sum_nonneg
  intro x hx
  simp only [List.mem_map] at hx
  obtain ⟨p, _, rfl⟩ := hx
  exact abs_nonneg _

/-- **C4.** For every candidate signal, if the total open exposure is at
least 40% of the account value (cash plus position value), the paper-mode
risk gate `check_risk_limits` returns `False` (so `execute_signal` never
reaches sizing or order placement for it).  `exposure ≥ 0.40 × A` is stated
as `2 * A ≤ 5 * exposure`. -/
theorem check_risk_limits_capital_cap
    (risk : RiskConfig) (profit_triggered : Bool) (cash : ℤ)
    (positions : List PaperPos) (today_count today_wins looking_good : ℤ)
    (sig : Signal)
    (hcap : 2 * total_account_value cash positions ≤
      5 * total_open_exposure positions) :
    check_risk_limits_paper risk profit_triggered cash positions today_count
      today_wins looking_good sig = false := by
  have hexp := total_open_exposure_nonneg positions
  have hge : total_open_exposure positions ≥
      (total_account_value cash positions * 40).tdiv 100 := by
    rcases le_or_lt 0 (total_account_value cash positions) with hA | hA
    · have h40 : (0 : ℤ) ≤ total_account_value cash positions * 40 := by
        positivity
      rw [Int.tdiv_eq_ediv h40 (by norm_num)]
      omega
    · have hrew : total_account_value cash positions * 40 =
          -(-total_account_value cash positions * 40) := by ring
      rw [hrew, Int.neg_tdiv]
      have h1 : 0 ≤ (-total_account_value cash positions * 40).tdiv 100 :=
        Int.tdiv_nonneg (by nlinarith) (by norm_num)
      omega
  simp only [check_risk_limits_paper]
  rw [if_pos hge]

/-- Witness for C4 at the E2E-3 numbers: cash 10,000¢, ten NO positions of
800¢ exposure each (account 18,000¢, cap 7,200¢ < exposure 8,000¢). -/
theorem check_risk_limits_capital_cap_witness :
    check_risk_limits_paper defaultRisk false 10000 e2e3Positions 0 0 0
      e2e1Signal = false := by
  exact check_risk_limits_capital_cap defaultRisk false 10000 e2e3Positions
    0 0 0 e2e1Signal (by decide)

/-- **C3.** Whenever unrealized P&L of open positions is at least 10% of the
total account value (`A ≤ 10 × unrealized`) and the truncated trigger amount
is positive, the paper profit-rule check invokes
`_liquidate_winning_positions` on the open positions and sets
`_80pct_triggered`; while that flag is set (and neither the wins-bonus
nor the momentum branch fires: `bonus_trade_count ≤ 10` keeps the wins
branch at `base_max + 10`, and `looking_good` below threshold disables the
momentum branch), the `effective_max` used by the risk gate is exactly
`base_max + 10`. -/
theorem profit_rule_triggers_and_unlocks
    (cash : ℤ) (ps : List PaperPos) (risk : RiskConfig)
    (today_wins today_count looking_good : ℤ)
    (h10 : total_account_value cash ps ≤ 10 * unrealized_pnl_paper ps)
    (htrig : 0 < profit_trigger_amount cash ps)
    (hbc : risk.bonus_trade_count ≤ 10)
    (hlg : looking_good < looking_good_threshold (account_scale_factor cash)) :
    check_80pct_rule_paper cash ps = some (open_positions ps) ∧
    effective_max_trades (base_max_trades risk (account_scale_factor cash))
        risk.bonus_trade_count true today_wins
        (bonus_threshold_trades risk (account_scale_factor cash)) today_count
        looking_good (looking_good_threshold (account_scale_factor cash)) =
      base_max_trades risk (account_scale_factor cash) + 10 := by
  constructor
  · have hA : 0 ≤ total_account_value cash ps := by
      by_contra hneg
      push_neg at hneg
      rw [profit_trigger_amount] at htrig
      have hrew : total_account_value cash ps * 10 =
          -(-total_account_value cash ps * 10) := by ring
      rw [hrew, Int.neg_tdiv] at htrig
      have h1 : 0 ≤ (-total_account_value cash ps * 10).tdiv 100 :=
        Int.tdiv_nonneg (by nlinarith) (by norm_num)
      omega
    have hTle : profit_trigger_amount cash ps ≤ unrealized_pnl_paper ps := by
      rw [profit_trigger_amount, Int.tdiv_eq_ediv (by positivity) (by norm_num)]
      omega
    simp only [check_80pct_rule_paper]
    rw [if_pos ⟨hTle, htrig⟩]
  · simp only [effective_max_trades]
    split_ifs <;> omega

/-- Witness for C3: cash 1,000¢, one NO position of 10 contracts with
exposure 200¢ priced at `yes_bid = 5` (value 950¢, unrealized 750¢, account
1,950¢, trigger 195¢). -/
theorem profit_rule_triggers_and_unlocks_witness :
    check_80pct_rule_paper 1000
        [{ ticker := "T1", position := -10, market_exposure := 200, yes_bid := 5 }] =
      some (open_positions
        [{ ticker := "T1", position := -10, market_exposure := 200, yes_bid := 5 }]) ∧
    effective_max_trades
        (base_max_trades defaultRisk (account_scale_factor 1000))
        defaultRisk.bonus_trade_count true 0
        (bonus_threshold_trades defaultRisk (account_scale_factor 1000)) 0 0
        (looking_good_threshold (account_scale_factor 1000)) =
      base_max_trades defaultRisk (account_scale_factor 1000) + 10 := by
  exact profit_rule_triggers_and_unlocks 1000
    [{ ticker := "T1", position := -10, market_exposure := 200, yes_bid := 5 }]
    defaultRisk 0 0 0 (by decide) (by decide) (by decide)
    (by norm_num [looking_good_threshold, account_scale_factor, pyTrunc,
      max_def])

/-- Sizing a fresh (non-stacked) `c8Signal` with a large bankroll gives 10
contracts: risk band 225¢ ÷ 20¢ = 11, capped at 10. -/
theorem c8_size_nostack :
    calculate_position_size defaultRisk 1000000 false true 0 c8Signal = 10 := by
  have hf1 : (225 : ℤ).fdiv 20 = 11 := by decide
  have hf3 : ((-175) : ℤ).fdiv 20 = -9 := by decide
  have hf4 : (25000000 : ℤ).tdiv 100 = 250000 := by decide
  have hf5 : (250000 : ℤ).fdiv 20 = 12500 := by decide
  norm_num [calculate_position_size, stack_multiplier, pyTrunc, defaultRisk,
    c8Signal, hf1, hf3, hf4, hf5, min_def, max_def]

/-- Sizing a stacked lock-in `c8Signal` (5× band, 1125¢ ÷ 20¢ = 56) is still
capped at 10 contracts. -/
theorem c8_size_stack :
    calculate_position_size defaultRisk 1000000 true true 0 c8Signal = 10 := by
  have hf2 : (1125 : ℤ).fdiv 20 = 56 := by decide
  have hf3 : ((-175) : ℤ).fdiv 20 = -9 := by decide
  have hf4 : (25000000 : ℤ).tdiv 100 = 250000 := by decide
  have hf5 : (250000 : ℤ).fdiv 20 = 12500 := by decide
  norm_num [calculate_position_size, stack_multiplier, pyTrunc, defaultRisk,
    c8Signal, hf2, hf3, hf4, hf5, min_def, max_def]

/-- Counterexample to C8's invariant as stated: three lock-in executions of
`c8Signal` stack 10 contracts each — the gate only refuses once the position
already holds 25, so the ticker reaches 30 > 25 contracts. -/
theorem lockin_stack_exceeds_25_counterexample :
    run_lockin_stacks defaultRisk 1000000
        [(c8Signal, 0, true), (c8Signal, 0, true), (c8Signal, 0, true)] = 30 ∧
    ¬ (run_lockin_stacks defaultRisk 1000000
        [(c8Signal, 0, true), (c8Signal, 0, true), (c8Signal, 0, true)] ≤ 25) := by
  have hcap50 : defaultRisk.max_contracts_per_ticker = 50 := rfl
  have e1 : execute_lockin_stack defaultRisk 1000000 0 true c8Signal 0 = 10 := by
    simp [execute_lockin_stack, hcap50, c8_size_nostack]
  have e2 : execute_lockin_stack defaultRisk 1000000 0 true c8Signal 10 = 20 := by
    simp [execute_lockin_stack, hcap50, c8_size_stack]
  have e3 : execute_lockin_stack defaultRisk 1000000 0 true c8Signal 20 = 30 := by
    simp [execute_lockin_stack, hcap50, c8_size_stack]
  have hrun : run_lockin_stacks defaultRisk 1000000
      [(c8Signal, 0, true), (c8Signal, 0, true), (c8Signal, 0, true)] = 30 := by
    simp [run_lockin_stacks, e1, e2, e3]
  exact ⟨hrun, by omega⟩

/-- One execution never pushes a position beyond `24 + C` when every
possible sizing of that step is at most `C`: positions at 25 and above are
refused, so an accepted stack starts from at most 24. -/
theorem execute_lockin_stack_le (risk : RiskConfig) (balance j C acc : ℤ)
    (g : Bool) (sig : Signal) (hacc : acc ≤ 24 + C)
    (hsize : ∀ st : Bool, calculate_position_size risk balance st true j sig ≤ C) :
    execute_lockin_stack risk balance j g sig acc ≤ 24 + C := by
  simp only [execute_lockin_stack]
  split_ifs with h1 h2 h3 h4
  · exact hacc
  · exact hacc
  · exact hacc
  · exact hacc
  · have hc := hsize (acc != 0)
    push_neg at h2
    rcases eq_or_ne acc 0 with rfl | hne
    · omega
    · have := h2 hne
      omega

/-- Folding lock-in executions preserves the `24 + C` bound. -/
theorem foldl_stack_le (risk : RiskConfig) (balance C : ℤ) :
    ∀ (steps : List (Signal × ℤ × Bool)) (acc : ℤ),
      (∀ s ∈ steps, ∀ st : Bool,
        calculate_position_size risk balance st true s.2.1 s.1 ≤ C) →
      acc ≤ 24 + C →
      steps.foldl (fun existing step =>
        execute_lockin_stack risk balance step.2.1 step.2.2 step.1 existing)
        acc ≤ 24 + C
  | [], acc, _, hacc => by simpa using hacc
  | s :: ss, acc, hsz, hacc => by
    simp only [List.foldl_cons]
    exact foldl_stack_le risk balance C ss _
      (fun x hx st => hsz x (List.mem_cons_of_mem s hx) st)
      (execute_lockin_stack_le risk balance s.2.1 C acc s.2.2 s.1 hacc
        (hsz s (List.mem_cons_self s ss)))

/-- **C8 (amended).** With a `(ticker, side)` position already held and a
`metar_lockin` signal arriving, `execute_signal` proceeds (stacking) with
the edge-tiered sizing multiplier (5× for edge ≥ 80%, 3× for 40% ≤ edge
< 80%): the live stack gate refuses a duplicate only once the existing
position holds at least 25 contracts.  Hence the cumulative contracts per
ticker are NOT capped at 25 — they are bounded by 24 plus the contracts of
one execution (`24 + C` when every sizing is at most `C`), and can exceed
25. -/
theorem lockin_stack_behaviour
    (risk : RiskConfig) (balance jitter C existing : ℤ) (sig : Signal)
    (tom : Bool) (sd : String) (e3 : ℚ)
    (steps : List (Signal × ℤ × Bool))
    (h80 : sig.edge_pct ≥ 80) (h40 : 40 ≤ e3) (h40b : e3 < 80)
    (hex0 : existing ≠ 0) (hex25 : existing < 25)
    (hexcap : existing < risk.max_contracts_per_ticker)
    (hsteps : ∀ s ∈ steps, ∀ st : Bool,
      calculate_position_size risk balance st true s.2.1 s.1 ≤ C)
    (hC : 0 ≤ C) :
    stack_multiplier true true tom sig.edge_pct sig.side = 5 ∧
    stack_multiplier true true tom e3 sd = 3 ∧
    execute_lockin_stack risk balance jitter true sig existing =
      (if calculate_position_size risk balance true true jitter sig ≤ 0
       then existing
       else existing +
         calculate_position_size risk balance true true jitter sig) ∧
    run_lockin_stacks risk balance steps ≤ 24 + C := by
  refine ⟨?_, ?_, ?_, ?_⟩
  · simp [stack_multiplier, h80]
  · rw [stack_multiplier]
    simp only [Bool.and_self, if_true]
    rw [if_neg (by exact not_le.mpr (lt_of_lt_of_le h40b (by norm_num))),
      if_pos h40]
  · have hstb : (existing != 0) = true := by simpa using hex0
    simp only [execute_lockin_stack, hstb]
    rw [if_neg (not_le.mpr hexcap), if_neg (by push_neg; intro _; omega)]
    simp
  · exact foldl_stack_le risk balance C steps 0 hsteps (by omega)

/-- Witness for C8 (amended): three stacked executions of `c8Signal`
(edge 99%, 10 contracts each) from an existing position of 10. -/
theorem lockin_stack_behaviour_witness :
    stack_multiplier true true false (99 : ℚ) "no" = 5 ∧
    stack_multiplier true true false (50 : ℚ) "no" = 3 ∧
    execute_lockin_stack defaultRisk 1000000 0 true c8Signal 10 =
      (if calculate_position_size defaultRisk 1000000 true true 0 c8Signal ≤ 0
       then (10 : ℤ)
       else 10 + calculate_position_size defaultRisk 1000000 true true 0
         c8Signal) ∧
    run_lockin_stacks defaultRisk 1000000
        [(c8Signal, 0, true), (c8Signal, 0, true), (c8Signal, 0, true)] ≤
      24 + 10 := by
  refine lockin_stack_behaviour defaultRisk 1000000 0 10 10 c8Signal false "no"
    50 [(c8Signal, 0, true), (c8Signal, 0, true), (c8Signal, 0, true)]
    (by norm_num [c8Signal]) (by norm_num) (by norm_num) (by decide)
    (by decide) (by decide) ?_ (by decide)
  intro s hs st
  simp only [List.mem_cons, List.mem_singleton] at hs
  have hs' : s = (c8Signal, (0 : ℤ), true) := by tauto
  subst hs'
  cases st
  · simp [c8_size_nostack]
  · simp [c8_size_stack]

/-- **C9.** Inside the high lock window (ET hour ≥ 18), for every live
market whose floor strike exceeds `running_H + 1°F`, the impossible-bracket
checker emits exactly one BUY NO signal at `100 - yes_bid` with
`edge = (yes_bid - 1)/yes_bid × 100` (from the assigned probability
`our_prob = 0.01`, i.e. `our_price_cents = 1`) whenever `yes_bid ≥ 10`, and
no signal when `yes_bid < 10`. -/
theorem lockin_impossible_bracket_signal
    (h : ℤ) (m : Market) (city mt event : String) (runH min_edge f : ℚ)
    (hf : m.floor_strike = some f)
    (hbound : f > runH + LOCKIN_SAFETY_BUFFER_F)
    (hme : min_edge ≤ 90) :
    (is_high_locked h = true ↔ 18 ≤ h) ∧
    (10 ≤ m.yes_bid →
      check_impossible_bracket m city mt event runH
          (runH + LOCKIN_SAFETY_BUFFER_F) "above" min_edge =
        some { city := city, market_type := mt, event_ticker := event,
               market_ticker := m.ticker, action := "buy", side := "no",
               suggested_price := 100 - m.yes_bid, confidence := 19/20,
               edge_pct := ((m.yes_bid : ℚ) - 1) / (m.yes_bid : ℚ) * 100,
               current_temp_f := runH, forecast_temp_f := runH,
               surrounding_avg_f := runH, market_yes_price := m.yes_bid }) ∧
    (m.yes_bid < 10 →
      check_impossible_bracket m city mt event runH
          (runH + LOCKIN_SAFETY_BUFFER_F) "above" min_edge = none) ∧
    lockin_our_prob = 1/100 := by
  refine ⟨?_, ?_, ?_, rfl⟩
  · simp [is_high_locked, ge_iff_le]
  · intro hb
    have hb0 : ¬ (m.yes_bid = 0 ∧ m.yes_ask = 100) := by
      intro hcon
      omega
    have hbq : (10 : ℚ) ≤ (m.yes_bid : ℚ) := by exact_mod_cast hb
    have hbpos : (0 : ℚ) < (m.yes_bid : ℚ) := by linarith
    have hedge : min_edge ≤ ((m.yes_bid : ℚ) - 1) / (m.yes_bid : ℚ) * 100 := by
      refine le_trans hme ?_
      rw [div_mul_eq_mul_div, le_div_iff₀ hbpos]
      nlinarith
    simp [check_impossible_bracket, hf, hb0, hbound, not_lt.mpr hb,
      not_lt.mpr hedge, lockin_our_price_cents]
  · intro hb
    simp only [check_impossible_bracket, hf]
    rw [if_neg (by simp)]
    by_cases hliq : m.yes_bid = 0 ∧ m.yes_ask = 100
    · rw [if_pos hliq]
    · rw [if_neg hliq]
      simp [hbound, hb]

/-- Witness for C9 at the E2E-6 numbers: 19:00 ET, `KNYC` running high
52.3°F, market `H>58` with `yes_bid = 30` — BUY NO at 70¢, edge
`(30-1)/30 × 100`. -/
theorem lockin_impossible_bracket_signal_witness :
    (is_high_locked 19 = true ↔ 18 ≤ (19 : ℤ)) ∧
    (10 ≤ e2e6Market.yes_bid →
      check_impossible_bracket e2e6Market "NYC" "high" "KXHIGHNY" (523/10)
          (523/10 + LOCKIN_SAFETY_BUFFER_F) "above" 15 =
        some { city := "NYC", market_type := "high",
               event_ticker := "KXHIGHNY",
               market_ticker := e2e6Market.ticker, action := "buy",
               side := "no", suggested_price := 100 - e2e6Market.yes_bid,
               confidence := 19/20,
               edge_pct := ((e2e6Market.yes_bid : ℚ) - 1) /
                 (e2e6Market.yes_bid : ℚ) * 100,
               current_temp_f := 523/10, forecast_temp_f := 523/10,
               surrounding_avg_f := 523/10,
               market_yes_price := e2e6Market.yes_bid }) ∧
    (e2e6Market.yes_bid < 10 →
      check_impossible_bracket e2e6Market "NYC" "high" "KXHIGHNY" (523/10)
          (523/10 + LOCKIN_SAFETY_BUFFER_F) "above" 15 = none) ∧
    lockin_our_prob = 1/100 := by
  exact lockin_impossible_bracket_signal 19 e2e6Market "NYC" "high" "KXHIGHNY"
    (523/10) 15 58 rfl (by norm_num [LOCKIN_SAFETY_BUFFER_F]) (by norm_num)

end Drewbots
